import Mathlib

/-
Verification of the credential-lifecycle and safety-gate core of the
toconline-mcp server, shallowly embedded in Lean 4.

The embedding translates the Python sources:
  src/toconline_mcp/auth.py      (TokenStore, make_auth_url)
  src/toconline_mcp/client.py    (TOCOnlineClient._request, path allow-list)
  src/toconline_mcp/app.py       (write_tool decorator: read-only gate, rate limit)
  src/toconline_mcp/keychain.py  (store_refresh_token)
  src/toconline_mcp/cli.py       (_auth_login state verification, _extract_code)

Stateful Python methods become pure functions with explicit state passing;
network and keychain effects become explicit oracle parameters (the response
the server would give, the outcome the keychain backend would have), and each
run records the observable events (renewals, sends, persistence writes) so
that temporal claims become statements about the recorded traces.
Time is modelled as a rational clock value; the Python float +infinity used
for static tokens becomes an explicit constructor.
-/

namespace TocOnline

/-- Configuration object, from settings.py (class Settings).  Only the fields
the verified core reads are modelled; defaults are the source defaults. -/
structure Settings where
  access_token : String := ""
  client_id : String := ""
  client_secret : String := ""
  refresh_token : String := ""
  redirect_uri : String := ""
  oauth_token_url : String := "https://app10.toconline.pt/oauth/token"
  read_only : Bool := false
  max_write_calls_per_session : Int := 50
deriving DecidableEq, Repr

/-- Expiry timestamp of a bearer token: either a finite clock value or the
float +infinity installed by TokenStore.load_static. -/
inductive Expiry where
  | fin (t : Rat)
  | inf
deriving DecidableEq, Repr

/-- State of auth.py TokenStore: the three dataclass fields, with the Python
float expires_at (default 0.0, possibly +inf) as an Expiry value. -/
structure TokenStore where
  access_token : String := ""
  refresh_token : String := ""
  expires_at : Expiry := .fin 0
deriving DecidableEq, Repr

/-- TokenStore.load_static: install a static access token and set the expiry
to +infinity. -/
def TokenStore.load_static (s : TokenStore) (token : String) : TokenStore :=
  { s with access_token := token, expires_at := .inf }

/-- TokenStore.load_refresh_token: store a refresh token for later renewal. -/
def TokenStore.load_refresh_token (s : TokenStore) (refresh_token : String) :
    TokenStore :=
  { s with refresh_token := refresh_token }

/-- TokenStore.is_valid: the token is present and the clock is strictly below
expires_at minus the 60 second buffer.  In Python the comparison
time.time() < self._expires_at - 60 is against a float that may be +inf;
the inf branch is always true since inf - 60 = inf. -/
def TokenStore.is_valid (s : TokenStore) (now : Rat) : Bool :=
  s.access_token != "" &&
    match s.expires_at with
    | .inf => true
    | .fin t => decide (now < t - 60)

/-- TokenStore.bearer: the Authorization header value. -/
def TokenStore.bearer (s : TokenStore) : String :=
  "Bearer " ++ s.access_token

/-- C6: TokenStore.is_valid holds exactly when a bearer is present and the
clock is strictly below expires_at minus 60; a credential whose expiry is
60 seconds away or nearer (or past) is invalid; load_static installs an
infinite expiry, and with a nonempty token the store is valid at every
clock value. -/
theorem token_validity (s : TokenStore) (now t : Rat) (tok : String) :
    (s.is_valid now = true ↔
      (s.access_token ≠ "" ∧
        (s.expires_at = .inf ∨ ∃ u, s.expires_at = .fin u ∧ now < u - 60)))
    ∧ (s.expires_at = .fin t → t - now ≤ 60 → s.is_valid now = false)
    ∧ ((s.load_static tok).expires_at = .inf)
    ∧ (tok ≠ "" → (s.load_static tok).is_valid now = true) := by
  refine ⟨?_, ?_, rfl, ?_⟩
  · constructor
    · intro h
      simp only [TokenStore.is_valid, Bool.and_eq_true, bne_iff_ne, ne_eq] at h
      refine ⟨h.1, ?_⟩
      cases he : s.expires_at with
      | inf => exact Or.inl rfl
      | fin u =>
        refine Or.inr ⟨u, rfl, ?_⟩
        have h2 := h.2
        rw [he] at h2
        simpa using h2
    · rintro ⟨h1, h2⟩
      simp only [TokenStore.is_valid, Bool.and_eq_true, bne_iff_ne, ne_eq]
      refine ⟨h1, ?_⟩
      rcases h2 with he | ⟨u, he, hu⟩
      · simp [he]
      · simp [he, hu]
  · intro he hle
    simp only [TokenStore.is_valid, he]
    have : ¬ (now < t - 60) := by linarith
    simp [this]
  · intro htok
    simp [TokenStore.is_valid, TokenStore.load_static, htok]

/-- Witness for token_validity at a concrete store, clock and token. -/
theorem token_validity_witness :
    (TokenStore.is_valid { access_token := "a", expires_at := .fin 100 } 0 = true)
    ∧ (TokenStore.is_valid { access_token := "a", expires_at := .fin 60 } 0 = false)
    ∧ (TokenStore.load_static {} "abc").is_valid 500 = true := by
  have h100 := token_validity { access_token := "a", expires_at := .fin 100 } 0 100 "abc"
  have h60 := token_validity { access_token := "a", expires_at := .fin 60 } 0 60 "abc"
  refine ⟨?_, ?_, ?_⟩
  · exact h100.1.mpr ⟨by decide, Or.inr ⟨100, rfl, by norm_num⟩⟩
  · exact h60.2.1 rfl (by norm_num)
  · exact (token_validity {} 500 0 "abc").2.2.2 (by decide)

/-- C10: TokenStore.load_refresh_token mutates only the refresh string; the
access token, the expiry, and hence is_valid are unchanged, and on a fresh
store the result is still invalid. -/
theorem load_refresh_token_frame (s : TokenStore) (r : String) (now : Rat) :
    (s.load_refresh_token r).refresh_token = r
    ∧ (s.load_refresh_token r).access_token = s.access_token
    ∧ (s.load_refresh_token r).expires_at = s.expires_at
    ∧ (s.load_refresh_token r).is_valid now = s.is_valid now
    ∧ (TokenStore.load_refresh_token {} r).is_valid now = false := by
  refine ⟨rfl, rfl, rfl, rfl, ?_⟩
  simp [TokenStore.is_valid, TokenStore.load_refresh_token]

/-- Outcome of one attempted keychain interaction, from keychain.py:
the keyring library may be missing, the backend may be unavailable, or the
write may fail; only .stored succeeds. -/
inductive KeychainOutcome where
  | stored
  | importError
  | backendUnavailable
  | failed
deriving DecidableEq, Repr

/-- keychain.py store_refresh_token: every failure mode is caught inside the
function and converted to the boolean False; it never raises, which the model
reflects by being a total function into Bool. -/
def store_refresh_token (kc : KeychainOutcome) : Bool :=
  match kc with
  | .stored => true
  | _ => false

/-- JSON body of a token-endpoint response, with the three fields
TokenStore.refresh reads.  A missing key is none. -/
structure OAuthPayload where
  access_token : Option String := none
  expires_in : Option Int := none
  refresh_token : Option String := none
deriving DecidableEq, Repr

/-- A response of the OAuth token endpoint: HTTP status plus JSON payload. -/
structure HttpResp where
  status : Nat
  payload : OAuthPayload
deriving DecidableEq, Repr

/-- httpx success range: 2xx.  response.raise_for_status() raises for any
other status. -/
def HttpResp.is_success (r : HttpResp) : Bool :=
  200 ≤ r.status && r.status < 300

/-- Ways TokenStore.refresh can fail: the two RuntimeError configuration
guards raised before the network call, the raise_for_status error on a
non-2xx token response, and the KeyError on a 2xx body without
access_token. -/
inductive RefreshErr where
  | configMissingCreds
  | configNoRefreshToken
  | httpStatus (status : Nat)
  | missingAccessToken
deriving DecidableEq, Repr

/-- Configuration errors are the two RuntimeError guards of
TokenStore.refresh. -/
def RefreshErr.isConfigError : RefreshErr → Bool
  | .configMissingCreds => true
  | .configNoRefreshToken => true
  | _ => false

/-- Observable outcome of one TokenStore.refresh call: the raised error if
any, the token-store state afterwards, how many network requests were
issued, and the keychain writes attempted (value written, backend result). -/
structure RefreshRun where
  error : Option RefreshErr
  store : TokenStore
  networkCalls : Nat
  persistWrites : List (String × Bool)
deriving DecidableEq, Repr

/-- TokenStore.refresh from auth.py, with the token-endpoint response and the
keychain outcome as oracle parameters.  Mirrors the source order: the two
configuration guards fire before the POST; raise_for_status then the
access_token lookup come after exactly one POST; on success the bearer and
expiry are replaced, and a truthy refresh_token in the payload replaces the
held refresh string and is written to the keychain (return value ignored). -/
def TokenStore.refresh (s : TokenStore) (settings : Settings) (now : Rat)
    (resp : HttpResp) (kc : KeychainOutcome) : RefreshRun :=
  if settings.client_id = "" || settings.client_secret = "" then
    ⟨some .configMissingCreds, s, 0, []⟩
  else
    let refresh_token :=
      if s.refresh_token != "" then s.refresh_token else settings.refresh_token
    if refresh_token = "" then
      ⟨some .configNoRefreshToken, s, 0, []⟩
    else if !resp.is_success then
      ⟨some (.httpStatus resp.status), s, 1, []⟩
    else
      match resp.payload.access_token with
      | none => ⟨some .missingAccessToken, s, 1, []⟩
      | some tok =>
        let s1 : TokenStore :=
          { s with
            access_token := tok,
            expires_at := .fin (now + ((resp.payload.expires_in.getD 7890000 : Int) : Rat)) }
        match resp.payload.refresh_token with
        | some rt =>
          if rt != "" then
            ⟨none, { s1 with refresh_token := rt }, 1, [(rt, store_refresh_token kc)]⟩
          else ⟨none, s1, 1, []⟩
        | none => ⟨none, s1, 1, []⟩

/-- C4: a successful refresh (2xx and an access_token in the body) replaces
the bearer, sets the expiry to now plus the reported lifetime (7890000
seconds when expires_in is absent), and exactly when the body holds a
nonempty refresh_token the held refresh string is replaced by it with
exactly one persistence write attempted; the outcome is success for every
keychain outcome, so a persistence failure never fails the refresh. -/
theorem refresh_success (s : TokenStore) (settings : Settings) (now : Rat)
    (resp : HttpResp) (kc : KeychainOutcome) (tok : String)
    (hid : settings.client_id ≠ "") (hsec : settings.client_secret ≠ "")
    (href : s.refresh_token ≠ "" ∨ settings.refresh_token ≠ "")
    (hok : resp.is_success = true)
    (htok : resp.payload.access_token = some tok) :
    (s.refresh settings now resp kc).error = none
    ∧ (s.refresh settings now resp kc).store.access_token = tok
    ∧ (s.refresh settings now resp kc).store.expires_at =
        .fin (now + ((resp.payload.expires_in.getD 7890000 : Int) : Rat))
    ∧ (s.refresh settings now resp kc).networkCalls = 1
    ∧ (∀ rt, resp.payload.refresh_token = some rt → rt ≠ "" →
        (s.refresh settings now resp kc).store.refresh_token = rt
        ∧ (s.refresh settings now resp kc).persistWrites = [(rt, store_refresh_token kc)])
    ∧ ((resp.payload.refresh_token = none ∨ resp.payload.refresh_token = some "") →
        (s.refresh settings now resp kc).store.refresh_token = s.refresh_token
        ∧ (s.refresh settings now resp kc).persistWrites = []) := by
  have hrt : (if s.refresh_token = "" then settings.refresh_token
      else s.refresh_token) ≠ "" := by
    rcases href with h | h
    · simp [h]
    · by_cases hs : s.refresh_token = "" <;> simp [hs, h]
  cases hrtp : resp.payload.refresh_token with
  | none =>
    refine ⟨?_, ?_, ?_, ?_, ?_, ?_⟩ <;>
      simp [TokenStore.refresh, hid, hsec, hrt, hok, htok, hrtp]
  | some rt0 =>
    by_cases h0 : rt0 = ""
    · subst h0
      refine ⟨?_, ?_, ?_, ?_, ?_, ?_⟩ <;>
        simp [TokenStore.refresh, hid, hsec, hrt, hok, htok, hrtp]
    · refine ⟨?_, ?_, ?_, ?_, ?_, ?_⟩ <;>
        simp [TokenStore.refresh, hid, hsec, hrt, hok, htok, hrtp, h0]

/-- Witness for refresh_success: a concrete successful refresh with a rotated
refresh string and a failing keychain backend. -/
theorem refresh_success_witness :
    ((TokenStore.refresh { refresh_token := "r1" }
        { client_id := "id", client_secret := "sec" } 0
        ⟨200, { access_token := some "a1", expires_in := some 3600,
                refresh_token := some "r2" }⟩ .failed).error = none)
    ∧ ((TokenStore.refresh { refresh_token := "r1" }
        { client_id := "id", client_secret := "sec" } 0
        ⟨200, { access_token := some "a1", expires_in := some 3600,
                refresh_token := some "r2" }⟩ .failed).store.refresh_token = "r2")
    ∧ ((TokenStore.refresh { refresh_token := "r1" }
        { client_id := "id", client_secret := "sec" } 0
        ⟨200, { access_token := some "a1", expires_in := some 3600,
                refresh_token := some "r2" }⟩ .failed).persistWrites =
        [("r2", false)]) := by
  have h := refresh_success { refresh_token := "r1" }
    { client_id := "id", client_secret := "sec" } 0
    ⟨200, { access_token := some "a1", expires_in := some 3600,
            refresh_token := some "r2" }⟩ .failed "a1"
    (by decide) (by decide) (Or.inl (by decide)) (by decide) rfl
  exact ⟨h.1, (h.2.2.2.2.1 "r2" rfl (by decide)).1,
    (h.2.2.2.2.1 "r2" rfl (by decide)).2⟩

/-- C5: with an empty client id or secret, or with no refresh string held and
none configured, TokenStore.refresh fails with a configuration error, issues
zero network requests, attempts no persistence write, and leaves the store
unchanged. -/
theorem refresh_config_error (s : TokenStore) (settings : Settings) (now : Rat)
    (resp : HttpResp) (kc : KeychainOutcome)
    (h : settings.client_id = "" ∨ settings.client_secret = ""
      ∨ (s.refresh_token = "" ∧ settings.refresh_token = "")) :
    ∃ e, (s.refresh settings now resp kc) = ⟨some e, s, 0, []⟩
      ∧ e.isConfigError = true := by
  by_cases hg : (settings.client_id = "" || settings.client_secret = "") = true
  · refine ⟨.configMissingCreds, ?_, rfl⟩
    unfold TokenStore.refresh
    rw [if_pos hg]
  · have hid : ¬ settings.client_id = "" := by
      simp only [Bool.or_eq_true, decide_eq_true_eq] at hg
      exact fun hc => hg (Or.inl hc)
    have hsec : ¬ settings.client_secret = "" := by
      simp only [Bool.or_eq_true, decide_eq_true_eq] at hg
      exact fun hc => hg (Or.inr hc)
    rcases h with h | h | ⟨h1, h2⟩
    · exact absurd h hid
    · exact absurd h hsec
    · refine ⟨.configNoRefreshToken, ?_, rfl⟩
      unfold TokenStore.refresh
      rw [if_neg hg, if_pos (by simp [h1, h2])]

/-- Witness for refresh_config_error: refresh on a fresh store with empty
settings fails as a configuration error with zero network calls. -/
theorem refresh_config_error_witness :
    ∃ e, (TokenStore.refresh {} { client_id := "id", client_secret := "sec" } 0
        ⟨200, {}⟩ .stored) = ⟨some e, {}, 0, []⟩ ∧ e.isConfigError = true :=
  refresh_config_error {} { client_id := "id", client_secret := "sec" } 0
    ⟨200, {}⟩ .stored (Or.inr (Or.inr ⟨rfl, rfl⟩))

/-- The read-only rejection message of app.py (READ_ONLY_ERROR constant). -/
def READ_ONLY_ERROR : String :=
  "This server is running in read-only mode (TOCONLINE_READ_ONLY=true). " ++
  "Write operations (create, update, delete, finalize, send) are disabled."

/-- The rate-limit rejection message of app.py (RATE_LIMIT_ERROR constant),
with the configured limit formatted into it. -/
def RATE_LIMIT_ERROR (limit : Int) : String :=
  "Write operation rate limit exceeded (max " ++ toString limit ++
  " per session). This safety limit prevents runaway automation. " ++
  "Adjust TOCONLINE_MAX_WRITE_CALLS_PER_SESSION to change the limit."

/-- Result of one call to a write_tool wrapped operation: either the wrapper
short-circuits and returns a structured error dictionary with the given
message under the error key, or it invokes the wrapped function.  Both are
ordinary return values: the wrapper raises nothing, which the model reflects
by being a total function. -/
inductive WtOutcome where
  | errorResult (msg : String)
  | invoked
deriving DecidableEq, Repr

/-- One invocation of the write_tool wrapper from app.py, as a transition on
the module-global write_call_count: read-only mode short-circuits without
touching the counter; otherwise a positive limit increments the counter
first and rejects when the incremented value exceeds the limit; a limit
that is not positive leaves the counter alone and always invokes. -/
def write_tool_call (settings : Settings) (write_call_count : Int) :
    Int × WtOutcome :=
  if settings.read_only then
    (write_call_count, .errorResult READ_ONLY_ERROR)
  else if 0 < settings.max_write_calls_per_session then
    let c := write_call_count + 1
    if settings.max_write_calls_per_session < c then
      (c, .errorResult (RATE_LIMIT_ERROR settings.max_write_calls_per_session))
    else (c, .invoked)
  else (write_call_count, .invoked)

/-- Value of the write_call_count global after n wrapper invocations in one
process, starting from the initial 0. -/
def write_call_count_after (settings : Settings) : Nat → Int
  | 0 => 0
  | n + 1 => (write_tool_call settings (write_call_count_after settings n)).1

/-- Outcome of invocation number n + 1 (zero-indexed n) in one process. -/
def write_tool_nth_outcome (settings : Settings) (n : Nat) : WtOutcome :=
  (write_tool_call settings (write_call_count_after settings n)).2

/-- C2: with read-only mode active the wrapper returns the structured
read-only error, leaves the counter untouched, never invokes the wrapped
function, and the message mentions read-only mode. -/
theorem write_gate_read_only (settings : Settings) (c : Int)
    (h : settings.read_only = true) :
    write_tool_call settings c = (c, .errorResult READ_ONLY_ERROR)
    ∧ (write_tool_call settings c).2 ≠ .invoked
    ∧ "read-only".data <:+: READ_ONLY_ERROR.data := by
  refine ⟨?_, ?_, ?_⟩
  · simp [write_tool_call, h]
  · simp [write_tool_call, h]
  · decide

/-- Witness for write_gate_read_only at a concrete read-only configuration
and counter value. -/
theorem write_gate_read_only_witness :
    write_tool_call { read_only := true } 7 =
      (7, .errorResult READ_ONLY_ERROR) :=
  (write_gate_read_only { read_only := true } 7 rfl).1

/-- C3: with read-only mode off and a positive limit N, every invocation
increments the counter by exactly one (so it never decreases and equals the
number of calls so far), the first N invocations invoke the wrapped
function, every later invocation is rejected with the rate-limit error whose
message contains N, and with limit 0 every invocation invokes the wrapped
function. -/
theorem write_gate_rate_limit (settings : Settings) (N : Int)
    (hro : settings.read_only = false)
    (hN : settings.max_write_calls_per_session = N) :
    (0 < N →
      (∀ i : Nat, write_call_count_after settings (i + 1) =
        write_call_count_after settings i + 1)
      ∧ (∀ i : Nat, write_call_count_after settings i = i)
      ∧ (∀ i : Nat, (i : Int) < N → write_tool_nth_outcome settings i = .invoked)
      ∧ (∀ i : Nat, N ≤ (i : Int) →
          write_tool_nth_outcome settings i = .errorResult (RATE_LIMIT_ERROR N))
      ∧ (toString N).data <:+: (RATE_LIMIT_ERROR N).data)
    ∧ (N = 0 → ∀ i : Nat, write_tool_nth_outcome settings i = .invoked) := by
  constructor
  · intro hpos
    have hstep : ∀ i : Nat, write_call_count_after settings (i + 1) =
        write_call_count_after settings i + 1 := by
      intro i
      simp only [write_call_count_after, write_tool_call, hro, hN]
      rw [if_neg (by simp), if_pos (by simpa using hpos)]
      by_cases hc : N < write_call_count_after settings i + 1 <;> simp [hc]
    have hcount : ∀ i : Nat, write_call_count_after settings i = i := by
      intro i
      induction i with
      | zero => rfl
      | succ n ih => rw [hstep n, ih]; push_cast; ring
    refine ⟨hstep, hcount, ?_, ?_, ?_⟩
    · intro i hi
      simp only [write_tool_nth_outcome, write_tool_call, hro, hN, hcount i]
      rw [if_neg (by simp), if_pos (by simpa using hpos),
        if_neg (by omega)]
    · intro i hi
      simp only [write_tool_nth_outcome, write_tool_call, hro, hN, hcount i]
      rw [if_neg (by simp), if_pos (by simpa using hpos),
        if_pos (by omega)]
    · exact ⟨"Write operation rate limit exceeded (max ".data,
        (" per session). This safety limit prevents runaway automation. " ++
          "Adjust TOCONLINE_MAX_WRITE_CALLS_PER_SESSION to change the limit.").data,
        by simp [RATE_LIMIT_ERROR, String.data_append]⟩
  · intro h0 i
    simp [write_tool_nth_outcome, write_tool_call, hro, hN, h0]

/-- Witness for write_gate_rate_limit: with limit 2 the first two calls
invoke the wrapped function, the third is rejected with the rate-limit
message, and with limit 0 an arbitrary call still invokes. -/
theorem write_gate_rate_limit_witness :
    write_tool_nth_outcome { max_write_calls_per_session := 2 } 0 = .invoked
    ∧ write_tool_nth_outcome { max_write_calls_per_session := 2 } 1 = .invoked
    ∧ write_tool_nth_outcome { max_write_calls_per_session := 2 } 2 =
        .errorResult (RATE_LIMIT_ERROR 2)
    ∧ write_tool_nth_outcome { max_write_calls_per_session := 0 } 5 = .invoked := by
  have h2 := write_gate_rate_limit { max_write_calls_per_session := 2 } 2 rfl rfl
  have h0 := write_gate_rate_limit { max_write_calls_per_session := 0 } 0 rfl rfl
  exact ⟨(h2.1 (by decide)).2.2.1 0 (by decide),
    (h2.1 (by decide)).2.2.1 1 (by decide),
    (h2.1 (by decide)).2.2.2.1 2 (by decide),
    h0.2 rfl 5⟩

/-- Characters admitted by the character class of the client.py allow-list
pattern: word characters plus slash, dot and dash.  This is the ASCII
fragment: the Python word class is Unicode, so on non-ASCII characters the
source accepts more than this predicate (for example accented letters); the
theorems about the guard therefore carry an ASCII-path hypothesis, on which
domain this predicate is exact. -/
def isApiPathChar (c : Char) : Bool :=
  c.isAlphanum || c = '_' || c = '/' || c = '.' || c = '-'

/-- One trailing newline is cut before the class check, because the dollar
anchor of a Python pattern also matches just before a single newline that
ends the string (checked against the re module: the pattern of client.py
accepts a path ending in one newline, not two). -/
def stripOneTrailingNewline (l : List Char) : List Char :=
  if l.getLast? = some '\n' then l.dropLast else l

/-- The client.py allow-list pattern SAFE_PATH_RE as re.match semantics: cut
at most one trailing newline (dollar-anchor behavior), then the path starts
with the four characters /api and every later character is in the class. -/
def SAFE_PATH_RE_matches (path : String) : Bool :=
  "/api".data.isPrefixOf (stripOneTrailingNewline path.data)
    && ((stripOneTrailingNewline path.data).drop 4).all isApiPathChar

/-- The Python membership test for a dotdot substring of the path. -/
def containsDotDot (path : String) : Bool :=
  decide (['.', '.'] <:+: path.data)

/-- Guard of TOCOnlineClient._request: the ValueError fires when the pattern
does not match or the path holds a dotdot substring. -/
def pathRejected (path : String) : Bool :=
  !SAFE_PATH_RE_matches path || containsDotDot path

/-- The allow-list pattern match equals the conjunction of the /api start and
a check of every character of the newline-stripped path, because the four
characters of /api are themselves in the allowed class. -/
theorem SAFE_PATH_RE_matches_eq_all (path : String) :
    SAFE_PATH_RE_matches path =
      ("/api".data.isPrefixOf (stripOneTrailingNewline path.data)
        && (stripOneTrailingNewline path.data).all isApiPathChar) := by
  unfold SAFE_PATH_RE_matches
  cases hpre : "/api".data.isPrefixOf (stripOneTrailingNewline path.data) with
  | false => simp
  | true =>
    obtain ⟨t, ht⟩ := List.isPrefixOf_iff_prefix.mp hpre
    have hdrop : (stripOneTrailingNewline path.data).drop 4 = t := by
      rw [← ht]; exact List.drop_left' rfl
    rw [hdrop, ← ht]
    simp only [Bool.true_and, List.all_append]
    have h4 : "/api".data.all isApiPathChar = true := by decide
    rw [h4, Bool.true_and]

/-- An API response for a proxied request: status and raw JSON body. -/
structure ApiResp where
  status : Nat
  body : String
deriving DecidableEq, Repr

/-- httpx success range for a proxied response. -/
def ApiResp.is_success (r : ApiResp) : Bool :=
  200 ≤ r.status && r.status < 300

/-- Final outcome of one TOCOnlineClient._request call: the ValueError of the
path guard, an error propagated from a token refresh, the TOCOnlineError
raised for a non-success response, or the parsed body of a success. -/
inductive ReqResult where
  | pathError
  | refreshError (e : RefreshErr)
  | apiError (status : Nat) (body : String)
  | ok (body : String)
deriving DecidableEq, Repr

/-- _raise_for_api_errors plus response.json(): a success status returns the
body, anything else raises the TOCOnlineError built from that response.
The message formatting of TOCOnlineError is not modelled; the outcome keeps
the whole response so claims about which response decides the result are
expressible. -/
def handleApiResponse (r : ApiResp) : ReqResult :=
  if r.is_success then .ok r.body else .apiError r.status r.body

/-- Network-visible event of one _request call: a token renewal (one POST of
the token endpoint) or one send of the proxied request, recording the
method, path, Authorization header and body actually sent. -/
inductive Ev (β : Type) where
  | renew
  | send (method path authHeader : String) (body : β)
deriving DecidableEq, Repr

/-- Run of one _request call: the ordered network events, the outcome, and
the token-store state afterwards. -/
structure RequestRun (β : Type) where
  events : List (Ev β)
  result : ReqResult
  store : TokenStore
deriving DecidableEq, Repr

/-- Send phase of client.py _request, after the path guard and _ensure_token:
send once with the current bearer header; on a 401 force one refresh and
resend the identical request once with the recomputed header, and the final
outcome comes from the second response alone; on any other status the first
response decides the outcome with no further event.  The two ApiResp
parameters are the oracle responses of the first and the potential second
send. -/
def requestSend {β : Type} (settings : Settings) (st : TokenStore) (now : Rat)
    (method path : String) (body : β) (reactiveResp : HttpResp)
    (kc2 : KeychainOutcome) (resp1 resp2 : ApiResp) (evs : List (Ev β)) :
    RequestRun β :=
  let ev1 : Ev β := .send method path st.bearer body
  if resp1.status = 401 then
    let r2 := st.refresh settings now reactiveResp kc2
    match r2.error with
    | some e => ⟨evs ++ [ev1, .renew], .refreshError e, r2.store⟩
    | none =>
      ⟨evs ++ [ev1, .renew, .send method path r2.store.bearer body],
        handleApiResponse resp2, r2.store⟩
  else ⟨evs ++ [ev1], handleApiResponse resp1, st⟩

/-- client.py TOCOnlineClient._request: validate the path (ValueError before
any renewal or network event), run _ensure_token (refresh only when the
store is invalid, with proactiveResp and kc1 as that call's oracles), then
the send phase. -/
def TOCOnlineClient.request {β : Type} (settings : Settings)
    (store : TokenStore) (now : Rat) (method path : String) (body : β)
    (proactiveResp reactiveResp : HttpResp) (kc1 kc2 : KeychainOutcome)
    (resp1 resp2 : ApiResp) : RequestRun β :=
  if pathRejected path then ⟨[], .pathError, store⟩
  else if store.is_valid now then
    requestSend settings store now method path body reactiveResp kc2 resp1 resp2 []
  else
    let r := store.refresh settings now proactiveResp kc1
    match r.error with
    | some e => ⟨[.renew], .refreshError e, r.store⟩
    | none =>
      requestSend settings r.store now method path body reactiveResp kc2
        resp1 resp2 [.renew]

/-- C1: in every run that reaches the first send, a first response of 401
triggers exactly one reactive renewal followed by exactly one resend of the
identical method, path and body with the Authorization header recomputed
from the renewed store, and the outcome is decided by the second response
alone, whatever its status; a first response with any other status triggers
no reactive renewal and no resend, and the first response decides the
outcome.  The first half covers a valid credential (the proactive phase is
a no-op); the second half covers an invalid credential whose proactive
renewal succeeded, prepending exactly the one proactive renewal event. -/
theorem request_401_retry {β : Type} (settings : Settings) (store : TokenStore)
    (now : Rat) (method path : String) (body : β)
    (proactiveResp reactiveResp : HttpResp) (kc1 kc2 : KeychainOutcome)
    (resp1 resp2 : ApiResp)
    (hpath : pathRejected path = false) :
    (store.is_valid now = true →
      (resp1.status = 401 →
        (store.refresh settings now reactiveResp kc2).error = none →
        TOCOnlineClient.request settings store now method path body
            proactiveResp reactiveResp kc1 kc2 resp1 resp2 =
          ⟨[.send method path store.bearer body, .renew,
            .send method path
              (store.refresh settings now reactiveResp kc2).store.bearer body],
            handleApiResponse resp2,
            (store.refresh settings now reactiveResp kc2).store⟩)
      ∧ (resp1.status ≠ 401 →
        TOCOnlineClient.request settings store now method path body
            proactiveResp reactiveResp kc1 kc2 resp1 resp2 =
          ⟨[.send method path store.bearer body],
            handleApiResponse resp1, store⟩))
    ∧ (store.is_valid now = false →
      (store.refresh settings now proactiveResp kc1).error = none →
      (resp1.status = 401 →
        ((store.refresh settings now proactiveResp kc1).store.refresh
          settings now reactiveResp kc2).error = none →
        TOCOnlineClient.request settings store now method path body
            proactiveResp reactiveResp kc1 kc2 resp1 resp2 =
          ⟨[.renew,
            .send method path
              (store.refresh settings now proactiveResp kc1).store.bearer body,
            .renew,
            .send method path
              ((store.refresh settings now proactiveResp kc1).store.refresh
                settings now reactiveResp kc2).store.bearer body],
            handleApiResponse resp2,
            ((store.refresh settings now proactiveResp kc1).store.refresh
              settings now reactiveResp kc2).store⟩)
      ∧ (resp1.status ≠ 401 →
        TOCOnlineClient.request settings store now method path body
            proactiveResp reactiveResp kc1 kc2 resp1 resp2 =
          ⟨[.renew,
            .send method path
              (store.refresh settings now proactiveResp kc1).store.bearer body],
            handleApiResponse resp1,
            (store.refresh settings now proactiveResp kc1).store⟩)) := by
  constructor
  · intro hvalid
    constructor
    · intro h401 hsucc
      simp [TOCOnlineClient.request, requestSend, hpath, hvalid, h401, hsucc]
    · intro hne
      simp [TOCOnlineClient.request, requestSend, hpath, hvalid, hne]
  · intro hinvalid hpro
    constructor
    · intro h401 hsucc
      simp [TOCOnlineClient.request, requestSend, hpath, hinvalid, hpro,
        h401, hsucc]
    · intro hne
      simp [TOCOnlineClient.request, requestSend, hpath, hinvalid, hpro, hne]

/-- Witness for request_401_retry: a concrete 401 then 200 exchange, renewing
the bearer from a0 to a1 in between. -/
theorem request_401_retry_witness :
    TOCOnlineClient.request { client_id := "id", client_secret := "sec" }
        { access_token := "a0", refresh_token := "r1", expires_at := .inf }
        0 "GET" "/api/users" () ⟨200, {}⟩
        ⟨200, { access_token := some "a1", expires_in := some 3600 }⟩
        .stored .stored ⟨401, "x"⟩ ⟨200, "y"⟩ =
      ⟨[.send "GET" "/api/users" "Bearer a0" (), .renew,
        .send "GET" "/api/users" "Bearer a1" ()],
        .ok "y",
        { access_token := "a1", refresh_token := "r1",
          expires_at := .fin 3600 }⟩ := by
  rw [((request_401_retry { client_id := "id", client_secret := "sec" }
    { access_token := "a0", refresh_token := "r1", expires_at := .inf }
    0 "GET" "/api/users" () ⟨200, {}⟩
    ⟨200, { access_token := some "a1", expires_in := some 3600 }⟩
    .stored .stored ⟨401, "x"⟩ ⟨200, "y"⟩ (by decide)).1 (by decide)).1
    rfl (by decide)]
  simp [TokenStore.refresh, TokenStore.bearer, handleApiResponse,
    ApiResp.is_success, HttpResp.is_success, store_refresh_token]

/-- C7 counterexample: the path of the request below ends in a newline, a
character outside the claimed allow-list, yet the dollar anchor of the
Python pattern matches before one trailing newline, so the guard passes and
the call issues a network send and succeeds instead of raising the
ValueError with zero network calls. -/
theorem request_path_validation_counterexample :
    isApiPathChar '\n' = false
    ∧ '\n' ∈ "/api/x\n".data
    ∧ pathRejected "/api/x\n" = false
    ∧ TOCOnlineClient.request {} { access_token := "t", expires_at := .inf } 0
        "GET" "/api/x\n" () ⟨200, {}⟩ ⟨200, {}⟩ .stored .stored
        ⟨200, "b"⟩ ⟨200, "b"⟩ =
      ⟨[.send "GET" "/api/x\n" "Bearer t" ()], .ok "b",
        { access_token := "t", expires_at := .inf }⟩ := by
  refine ⟨by decide, by decide, by decide, by decide⟩

/-- C7 amended, scoped to ASCII paths (on non-ASCII characters the Unicode
word class of the source accepts more than the model): the path guard of
_request rejects exactly the paths that, after discounting a single trailing
newline, do not start with /api or hold a character outside alphanumerics,
underscore, slash, dot and dash, or that hold a dotdot substring; a
rejected call raises the ValueError before any renewal or send (its event
list is empty and the store is untouched), and a path meeting all three
conditions is never rejected by this check. -/
theorem request_path_validation_ascii {β : Type} (settings : Settings)
    (store : TokenStore) (now : Rat) (method path : String) (body : β)
    (proactiveResp reactiveResp : HttpResp) (kc1 kc2 : KeychainOutcome)
    (resp1 resp2 : ApiResp)
    (_hascii : ∀ c ∈ path.data, c.toNat < 128) :
    (pathRejected path = true ↔
      (¬ ("/api".data <+: stripOneTrailingNewline path.data)
        ∨ (∃ c ∈ stripOneTrailingNewline path.data, isApiPathChar c = false)
        ∨ ['.', '.'] <:+: path.data))
    ∧ (pathRejected path = true →
        TOCOnlineClient.request settings store now method path body
          proactiveResp reactiveResp kc1 kc2 resp1 resp2 =
        ⟨[], .pathError, store⟩)
    ∧ (pathRejected path = false →
        (TOCOnlineClient.request settings store now method path body
          proactiveResp reactiveResp kc1 kc2 resp1 resp2).result ≠ .pathError) := by
  refine ⟨?_, ?_, ?_⟩
  · unfold pathRejected containsDotDot
    rw [SAFE_PATH_RE_matches_eq_all]
    constructor
    · intro h
      have h' : ("/api".data.isPrefixOf (stripOneTrailingNewline path.data)
            = false
          ∨ (stripOneTrailingNewline path.data).all isApiPathChar = false)
          ∨ ['.', '.'] <:+: path.data := by simpa using h
      rcases h' with (h1 | h2) | h3
      · refine Or.inl fun hp => ?_
        rw [List.isPrefixOf_iff_prefix.mpr hp] at h1
        cases h1
      · refine Or.inr (Or.inl ?_)
        obtain ⟨c, hc, hcf⟩ := List.all_eq_false.mp h2
        exact ⟨c, hc, by simpa using hcf⟩
      · exact Or.inr (Or.inr h3)
    · intro h
      rcases h with h1 | h2 | h3
      · have : "/api".data.isPrefixOf (stripOneTrailingNewline path.data)
            = false := by
          cases hb : "/api".data.isPrefixOf (stripOneTrailingNewline path.data)
          · rfl
          · exact absurd (List.isPrefixOf_iff_prefix.mp hb) h1
        simp [this]
      · obtain ⟨c, hc, hcf⟩ := h2
        have : (stripOneTrailingNewline path.data).all isApiPathChar = false :=
          List.all_eq_false.mpr ⟨c, hc, by simp [hcf]⟩
        simp [this]
      · simp [h3]
  · intro h
    simp [TOCOnlineClient.request, h]
  · intro h
    unfold TOCOnlineClient.request
    rw [if_neg (by simp [h])]
    by_cases hv : store.is_valid now = true
    · rw [if_pos hv]
      unfold requestSend handleApiResponse
      split
      · cases hre : (store.refresh settings now reactiveResp kc2).error with
        | some e => simp [hre]
        | none => simp only [hre]; split <;> simp
      · split <;> simp
    · rw [if_neg hv]
      cases hre : (store.refresh settings now proactiveResp kc1).error with
      | some e => simp [hre]
      | none =>
        simp only [hre]
        unfold requestSend handleApiResponse
        split
        · cases hre2 : ((store.refresh settings now proactiveResp
              kc1).store.refresh settings now reactiveResp kc2).error with
          | some e => simp [hre2]
          | none => simp only [hre2]; split <;> simp
        · split <;> simp

/-- Witness for request_path_validation_ascii: a traversal path is rejected
with no events, and a well-formed path is not rejected by the guard. -/
theorem request_path_validation_ascii_witness :
    TOCOnlineClient.request {} {} 0 "GET" "/api/../etc" ()
        ⟨200, {}⟩ ⟨200, {}⟩ .stored .stored ⟨200, "b"⟩ ⟨200, "b"⟩ =
      ⟨[], .pathError, {}⟩
    ∧ (TOCOnlineClient.request {} {} 0 "GET" "/api/v1/customers" ()
        ⟨200, {}⟩ ⟨200, {}⟩ .stored .stored ⟨200, "b"⟩
        ⟨200, "b"⟩).result ≠ .pathError := by
  constructor
  · exact (request_path_validation_ascii {} {} 0 "GET" "/api/../etc" ()
      ⟨200, {}⟩ ⟨200, {}⟩ .stored .stored ⟨200, "b"⟩ ⟨200, "b"⟩
      (by decide)).2.1 (by decide)
  · exact (request_path_validation_ascii {} {} 0 "GET" "/api/v1/customers" ()
      ⟨200, {}⟩ ⟨200, {}⟩ .stored .stored ⟨200, "b"⟩ ⟨200, "b"⟩
      (by decide)).2.2 (by decide)

/-- Whitespace characters stripped by the Python str.strip default: space,
tab, newline, carriage return, vertical tab and form feed (ASCII part). -/
def isStripChar (c : Char) : Bool :=
  c = ' ' || c = '\t' || c = '\n' || c = '\r' || c = '\x0b' || c = '\x0c'

/-- Python str.strip with the default argument, on the character list. -/
def stripChars (l : List Char) : List Char :=
  ((l.dropWhile isStripChar).reverse.dropWhile isStripChar).reverse

/-- Python str.split with a one-character separator: the pieces between the
separator occurrences, in order, the empty input giving one empty piece. -/
def splitOnChar (sep : Char) : List Char → List (List Char)
  | [] => [[]]
  | c :: rest =>
    if c = sep then [] :: splitOnChar sep rest
    else
      match splitOnChar sep rest with
      | [] => [[c]]
      | h :: t => (c :: h) :: t

/-- Query component a la urllib.parse.urlparse: the fragment is everything
after the first hash sign and is cut first, then the query is everything
after the first question mark of what remains.  Percent decoding is not
modelled; the inputs considered are plain. -/
def urlQuery (url : List Char) : List Char :=
  let beforeFrag := (splitOnChar '#' url).headD []
  match splitOnChar '?' beforeFrag with
  | [] => []
  | [_] => []
  | _ :: rest => List.intercalate ['?'] rest

/-- First value of a key a la urllib.parse.parse_qs(...)[key][0] with default
arguments: chunks split on the ampersand, each cut at its first equals sign;
chunks without an equals sign or with an empty value are dropped
(keep_blank_values is false); the first value listed under the key is
returned, none when the key is absent.  Percent decoding and plus-to-space
are not modelled; the inputs considered are plain. -/
def parse_qs_first (query key : List Char) : Option (List Char) :=
  let pairs := (splitOnChar '&' query).filterMap fun chunk =>
    match splitOnChar '=' chunk with
    | [] => none
    | [_] => none
    | k :: vs =>
      let v := List.intercalate ['='] vs
      if v = [] then none else some (k, v)
  ((pairs.filter fun p => p.1 = key).head?).map Prod.snd

/-- cli.py _extract_code: strip the input; empty gives none; an input
starting with a scheme is parsed as a URL and the code query parameter is
returned; any other input is returned whole as the code. -/
def extract_code (user_input : List Char) : Option (List Char) :=
  let s := stripChars user_input
  if s = [] then none
  else if "http://".data.isPrefixOf s || "https://".data.isPrefixOf s then
    parse_qs_first (urlQuery s) "code".data
  else some s

/-- Continuation of the login flow after the operator pastes the callback:
either of the two sys.exit(1) aborts, or the exchange step entered with the
extracted authorization code. -/
inductive AuthStep where
  | abortedStateMismatch
  | abortedNoCode
  | exchanging (code : List Char)
deriving DecidableEq, Repr

/-- cli.py _auth_login from the paste onwards: when the stripped input starts
with a scheme, the state query parameter is compared against the expected
state and a difference (including an absent state) aborts; otherwise the
state check is skipped entirely; then the code is extracted, its absence
aborts, and the flow proceeds to the exchange with the code. -/
def auth_login_step (user_input expected_state : List Char) : AuthStep :=
  let s := stripChars user_input
  if ("http://".data.isPrefixOf s || "https://".data.isPrefixOf s)
      && (parse_qs_first (urlQuery s) "state".data != some expected_state) then
    .abortedStateMismatch
  else
    match extract_code user_input with
    | none => .abortedNoCode
    | some c => .exchanging c

/-- Echoed state of a callback input: the state query parameter when the
stripped input is URL shaped, absent otherwise. -/
def callbackState (user_input : List Char) : Option (List Char) :=
  let s := stripChars user_input
  if "http://".data.isPrefixOf s || "https://".data.isPrefixOf s then
    parse_qs_first (urlQuery s) "state".data
  else none

/-- C8 counterexample: a raw authorization code pasted instead of a callback
URL carries no echoed state, which therefore differs from the generated
state, yet the flow reaches the exchange step without any state check
instead of aborting. -/
theorem auth_state_check_counterexample :
    callbackState "rawcode123".data ≠ some "STATE123".data
    ∧ auth_login_step "rawcode123".data "STATE123".data =
        .exchanging "rawcode123".data := by
  constructor
  · decide
  · decide

/-- C8 amended: state verification applies exactly to URL-shaped inputs.
For every callback input whose stripped form starts with a scheme, an echoed
state differing from the generated state (including an absent one) aborts
the flow before the exchange, and such an input reaches the exchange step
only with the echoed state verified equal to the generated state. -/
theorem auth_state_check_url_inputs (input expected : List Char)
    (hurl : ("http://".data.isPrefixOf (stripChars input)
      || "https://".data.isPrefixOf (stripChars input)) = true) :
    (parse_qs_first (urlQuery (stripChars input)) "state".data ≠ some expected →
      auth_login_step input expected = .abortedStateMismatch)
    ∧ (∀ c, auth_login_step input expected = .exchanging c →
      parse_qs_first (urlQuery (stripChars input)) "state".data = some expected) := by
  constructor
  · intro hne
    unfold auth_login_step
    rw [if_pos (by simp [hurl, hne])]
  · intro c hc
    by_contra hne
    unfold auth_login_step at hc
    rw [if_pos (by simp [hurl, hne])] at hc
    cases hc

/-- Witness for auth_state_check_url_inputs: a callback URL echoing a wrong
state aborts the flow. -/
theorem auth_state_check_url_inputs_witness :
    auth_login_step "https://cb.example/done?code=abc&state=EVIL".data
      "GOOD".data = .abortedStateMismatch :=
  (auth_state_check_url_inputs "https://cb.example/done?code=abc&state=EVIL".data
    "GOOD".data (by decide)).1 (by decide)

/-- Python str.replace on character lists, written with a fuel argument so
that it is structural: every occurrence of a nonempty pattern is replaced,
scanning left to right without overlap.  The fuel never runs out when it
starts at the length of the list.  An empty pattern is returned unchanged
here; the source only ever replaces the nonempty pattern /token. -/
def replaceAllFuel (pat rep : List Char) : Nat → List Char → List Char
  | 0, l => l
  | _ + 1, [] => []
  | fuel + 1, c :: rest =>
    if pat.isPrefixOf (c :: rest) && !pat.isEmpty then
      rep ++ replaceAllFuel pat rep fuel (rest.drop (pat.length - 1))
    else c :: replaceAllFuel pat rep fuel rest

/-- Python str.replace(pat, rep) on character lists. -/
def replaceAll (pat rep l : List Char) : List Char :=
  replaceAllFuel pat rep l.length l

/-- The replacement scan of the empty list is empty at every fuel. -/
theorem replaceAllFuel_nil (pat rep : List Char) (f : Nat) :
    replaceAllFuel pat rep f [] = [] := by
  cases f <;> rfl

/-- When the pattern occurs exactly once, as the trailing segment, the
replacement scan rewrites exactly that trailing segment. -/
theorem replaceAllFuel_single_trailing (pat rep : List Char) (hpat : pat ≠ [])
    (u : List Char)
    (huniq : ∀ v w, u ++ pat = v ++ pat ++ w → v = u ∧ w = []) :
    replaceAllFuel pat rep (u ++ pat).length (u ++ pat) = u ++ rep := by
  induction u with
  | nil =>
    cases pat with
    | nil => exact absurd rfl hpat
    | cons p ps =>
      have hself : (p :: ps).isPrefixOf (p :: ps) = true :=
        List.isPrefixOf_iff_prefix.mpr (List.prefix_refl _)
      simp only [List.nil_append, List.length_cons, replaceAllFuel]
      rw [if_pos (by simp [hself])]
      simp [List.drop_length, replaceAllFuel_nil]
  | cons c u' ih =>
    have hpre : pat.isPrefixOf (c :: (u' ++ pat)) = false := by
      cases hb : pat.isPrefixOf (c :: (u' ++ pat)) with
      | false => rfl
      | true =>
        obtain ⟨t, ht⟩ := List.isPrefixOf_iff_prefix.mp hb
        have h0 := huniq [] t (by rw [List.nil_append, ht]; rfl)
        exact (List.cons_ne_nil c u' h0.1.symm).elim
    have huniq' : ∀ v w, u' ++ pat = v ++ pat ++ w → v = u' ∧ w = [] := by
      intro v w h
      have h2 := huniq (c :: v) w (by rw [List.cons_append, h]; rfl)
      refine ⟨?_, h2.2⟩
      have := h2.1
      simpa using this
    simp only [List.cons_append, List.length_cons, replaceAllFuel,
      List.append_eq]
    rw [hpre]
    simp only [Bool.false_and, Bool.false_eq_true, if_false]
    rw [ih huniq']

/-- auth.py make_auth_url line one: the authorization endpoint is derived by
settings.oauth_token_url.replace applied to /token and /auth, which replaces
every occurrence of /token. -/
def auth_endpoint (settings : Settings) : List Char :=
  replaceAll "/token".data "/auth".data settings.oauth_token_url.data

/-- The spec sentence formalised literally: the authorization endpoint is
derived by replacing a trailing /token path segment of the configured token
URL with /auth, every other character unchanged. -/
def spec_trailing_auth_endpoint (tokenUrl : List Char) : List Char :=
  if "/token".data.isSuffixOf tokenUrl then
    tokenUrl.take (tokenUrl.length - 6) ++ "/auth".data
  else tokenUrl

/-- C9 counterexample: on a configured token URL holding the substring
/token twice the code replaces both occurrences, while replacing only the
trailing segment would keep the first one, so the two derivations differ. -/
theorem auth_endpoint_counterexample :
    auth_endpoint { oauth_token_url := "https://app.example/token/token" } ≠
      spec_trailing_auth_endpoint "https://app.example/token/token".data
    ∧ auth_endpoint { oauth_token_url := "https://app.example/token/token" } =
        "https://app.example/auth/auth".data
    ∧ spec_trailing_auth_endpoint "https://app.example/token/token".data =
        "https://app.example/token/auth".data := by
  refine ⟨by decide, by decide, by decide⟩

/-- C9 amended: the code replaces every occurrence of /token in the
configured token URL by /auth; when /token occurs exactly once, as the
trailing segment (no occurrence survives after the last character is cut),
the result coincides with replacing the trailing segment. -/
theorem auth_endpoint_single_trailing (settings : Settings) (u : List Char)
    (hu : settings.oauth_token_url.data = u ++ "/token".data)
    (hno : ¬ ("/token".data <:+: (u ++ "/token".data).dropLast)) :
    auth_endpoint settings = u ++ "/auth".data := by
  have huniq : ∀ v w, u ++ "/token".data = v ++ "/token".data ++ w →
      v = u ∧ w = [] := by
    intro v w h
    cases hw : w with
    | nil =>
      subst hw
      rw [List.append_nil] at h
      exact ⟨(List.append_cancel_right h).symm, rfl⟩
    | cons x xs =>
      exfalso
      apply hno
      refine ⟨v, w.dropLast, ?_⟩
      have hwne : w ≠ [] := by simp [hw]
      rw [h, List.dropLast_append_of_ne_nil _ hwne]
  unfold auth_endpoint replaceAll
  rw [hu]
  exact replaceAllFuel_single_trailing "/token".data "/auth".data
    (by decide) u huniq

/-- Witness for auth_endpoint_single_trailing: the default configured token
URL has its one trailing /token segment replaced. -/
theorem auth_endpoint_single_trailing_witness :
    auth_endpoint {} =
      "https://app10.toconline.pt/oauth".data ++ "/auth".data :=
  auth_endpoint_single_trailing {} "https://app10.toconline.pt/oauth".data
    (by decide) (by decide)

end TocOnline
